import Mathlib

/-!
Shallow embedding of `src/scrape.py` (club roster scraper).

The external collaborators named by the design (the page-fetching engine,
the markup parser, `urllib.parse.urljoin` and the `pycountry` lookup) are
modelled as opaque inputs: a fetch is a function from the global call index
to either a parsed page or a fetch error, and an `Env` carries the URL-join
and country-lookup capabilities.  Everything written in `scrape.py` itself
is translated function by function.  Python exceptions (IndexError from
list indexing, AttributeError from calling a method on `None`) are made
explicit with `Except PyError`.
-/

namespace Scrape

/-- Python exceptions that the repository's own code can raise. -/
inductive PyError where
  | indexError
  | attributeError
deriving DecidableEq, Repr

/-- A parsed markup tree, the result of `BeautifulSoup(html, "html.parser")`:
either a text node or an element with a tag, attributes and children. -/
inductive Node where
  | text : String → Node
  | elem : String → List (String × String) → List Node → Node

/-- The opaque external capabilities used by the source:
`urllib.parse.urljoin` and the `pycountry` country lookup (returning the
alpha-2 code of a recognised country name, or nothing). -/
structure Env where
  urljoin : String → String → String
  lookup : String → Option String

/-- Python `str.strip()` (and BeautifulSoup's `strip=True`): remove
leading and trailing whitespace. -/
def pyStrip (s : String) : String :=
  String.mk
    (((s.data.dropWhile (fun c => c.isWhitespace)).reverse.dropWhile
      (fun c => c.isWhitespace)).reverse)

/-- Split an attribute value into its whitespace-separated tokens (the
multi-valued `class` attribute). -/
def classTokensAux : List Char → List Char → List String
  | [], acc => if acc.isEmpty then [] else [String.mk acc.reverse]
  | c :: cs, acc =>
    if c.isWhitespace then
      if acc.isEmpty then classTokensAux cs []
      else String.mk acc.reverse :: classTokensAux cs []
    else classTokensAux cs (c :: acc)

/-- The whitespace-separated tokens of a string. -/
def classTokens (s : String) : List String :=
  classTokensAux s.data []

mutual
/-- All strict descendants of a node in document (pre-)order; this is the
traversal order of BeautifulSoup's `find` / `find_all`. -/
def descendants : Node → List Node
  | .text _ => []
  | .elem _ _ cs => descList cs

def descList : List Node → List Node
  | [] => []
  | c :: cs => c :: (descendants c ++ descList cs)
end

mutual
/-- `element.text` / `get_text()`: concatenation of all text fragments. -/
def textOf : Node → String
  | .text s => s
  | .elem _ _ cs => textListOf cs

def textListOf : List Node → String
  | [] => ""
  | c :: cs => textOf c ++ textListOf cs
end

mutual
/-- `get_text(strip=True)`: each text fragment stripped, then concatenated. -/
def getTextStrip : Node → String
  | .text s => pyStrip s
  | .elem _ _ cs => getTextStripList cs

def getTextStripList : List Node → String
  | [] => ""
  | c :: cs => getTextStrip c ++ getTextStripList cs
end

/-- Attribute lookup, `element.attrs.get(key)`. -/
def attrOf (n : Node) (key : String) : Option String :=
  match n with
  | .text _ => none
  | .elem _ attrs _ => (attrs.find? (fun kv => kv.1 = key)).map (fun kv => kv.2)

/-- BeautifulSoup class matching: `class_=c` matches when `c` is one of the
whitespace-separated tokens of the element's `class` attribute. -/
def hasClass (n : Node) (c : String) : Bool :=
  match attrOf n "class" with
  | some v => (classTokens v).contains c
  | none => false

/-- Tag-and-class selector used by `find`/`find_all(tag, class_=...)`. -/
def matchesTag (n : Node) (tag : String) (cls : Option String) : Bool :=
  match n with
  | .text _ => false
  | .elem t _ _ => t = tag && (match cls with
      | none => true
      | some c => hasClass n c)

/-- `element.find(tag, class_=cls)`: first matching strict descendant in
document order. -/
def find (n : Node) (tag : String) (cls : Option String) : Option Node :=
  (descendants n).find? (fun d => matchesTag d tag cls)

/-- `element.find_all(tag)`: all matching strict descendants in document
order (recursive, so nested occurrences are included). -/
def findAll (n : Node) (tag : String) (cls : Option String) : List Node :=
  (descendants n).filter (fun d => matchesTag d tag cls)

/-- `get_country_code` (src lines 16-21): alpha-2 code lowered, or the
lowercase sentinel "unknown" when the lookup raises `LookupError`. -/
def get_country_code (env : Env) (country_name : String) : String :=
  match env.lookup country_name with
  | some code => code.toLower
  | none => "unknown"

/-- One roster record as built by the dict literal at src lines 65-84. -/
structure Player where
  name : String
  status : String
  profile_url : String
  image_url : String
  nation : String
  nation_code : String
  club : String
  date_of_birth : String
  appearances : String
  goals : String
  assists : String
  own_goals : String
  yellow_cards : String
  second_yellow : String
  red_cards : String
  sub_on : String
  sub_off : String
  minutes_played : String
deriving DecidableEq, Repr

/-- Python list indexing `cols[i]`: the element, or `IndexError`. -/
def colAt (cols : List Node) (i : Nat) : Except PyError Node :=
  match cols.get? i with
  | some c => .ok c
  | none => .error .indexError

/-- `cols[i].text.strip()`: all text of the cell, Python-stripped;
raises `IndexError` when the column is absent. -/
def colText (cols : List Node) (i : Nat) : Except PyError String :=
  (colAt cols i).map (fun c => pyStrip (textOf c))

/-- Body of the roster row extraction (src lines 45-84), for a row whose
cell count passed the `< 12` guard.  `name_container.find('td',
class_='hauptlink')` being `None` makes the subsequent `.find('a')` raise
`AttributeError`; statistic columns are read by position 6..16, raising
`IndexError` when absent. -/
def extractRowBody (env : Env) (club_name base_url : String) (cols : List Node) :
    Except PyError Player := do
  let c1 ← colAt cols 1
  let name_container := find c1 "table" (some "inline-table")
  let (name_element, status_element, image_element) ←
    (match name_container with
     | some nc =>
       match find nc "td" (some "hauptlink") with
       | none => Except.error PyError.attributeError
       | some haupt =>
         let name_element := find haupt "a" none
         let trs := findAll nc "tr" none
         let status_element :=
           if trs.length > 1 then
             match trs.get? 1 with
             | some t => find t "td" none
             | none => none
           else none
         let image_element :=
           match find nc "a" none with
           | some a => find a "img" none
           | none => none
         Except.ok (name_element, status_element, image_element)
     | none => Except.ok (none, none, none) :
       Except PyError (Option Node × Option Node × Option Node))
  let name := match name_element with
    | some e => pyStrip (textOf e)
    | none => "Unknown"
  let status := match status_element with
    | some e => pyStrip (textOf e)
    | none => "Unknown"
  let raw_profile_url := match name_element with
    | some e => (attrOf e "href").getD ""
    | none => ""
  let profile_url :=
    if raw_profile_url ≠ "" && raw_profile_url ≠ "#" then
      env.urljoin base_url raw_profile_url
    else "Unknown"
  let image_url := match image_element with
    | some e => (attrOf e "src").getD "Unknown"
    | none => "Unknown"
  let c5 ← colAt cols 5
  let nation_images := findAll c5 "img" none
  let nations := match nation_images.head? with
    | some im => (attrOf im "alt").getD "Unknown"
    | none => "Unknown"
  let nation_code := get_country_code env nations
  let date_of_birth ← colText cols 6
  let appearances ← colText cols 7
  let goals ← colText cols 8
  let assists ← colText cols 9
  let own_goals ← colText cols 10
  let yellow_cards ← colText cols 11
  let second_yellow ← colText cols 12
  let red_cards ← colText cols 13
  let sub_on ← colText cols 14
  let sub_off ← colText cols 15
  let minutes_played ← colText cols 16
  Except.ok {
    name := name, status := status, profile_url := profile_url,
    image_url := image_url, nation := nations, nation_code := nation_code,
    club := club_name, date_of_birth := date_of_birth,
    appearances := appearances, goals := goals, assists := assists,
    own_goals := own_goals, yellow_cards := yellow_cards,
    second_yellow := second_yellow, red_cards := red_cards,
    sub_on := sub_on, sub_off := sub_off, minutes_played := minutes_played }

/-- One iteration of the row loop (src lines 40-85): rows with fewer than
12 `td` descendants are skipped. -/
def extractRow (env : Env) (club_name base_url : String) (row : Node) :
    Except PyError (Option Player) :=
  let cols := findAll row "td" none
  if cols.length < 12 then .ok none
  else (extractRowBody env club_name base_url cols).map some

/-- The row loop: append each produced record in order; a raised exception
aborts the whole call. -/
def extractRows (env : Env) (club_name base_url : String) :
    List Node → Except PyError (List Player)
  | [] => .ok []
  | r :: rs => do
    let p? ← extractRow env club_name base_url r
    let rest ← extractRows env club_name base_url rs
    match p? with
    | some p => Except.ok (p :: rest)
    | none => Except.ok rest

/-- `extract_table_data` (src lines 23-87).  Input is the already-parsed
page tree (parsing is the opaque collaborator) and the page URL. -/
def extract_table_data (env : Env) (soup : Node) (base_url : String) :
    Except PyError (List Player) :=
  let club_name := match find soup "h1" none with
    | some h => getTextStrip h
    | none => "Unknown"
  match find soup "table" (some "items") with
  | none => .ok []
  | some table =>
    match find table "tbody" none with
    | none => .ok []
    | some tbody => extractRows env club_name base_url (findAll tbody "tr" none)

/-! ### Retry machinery (the tenacity decorators and their nesting)

A network fetch is modelled as a function from the global fetch-call index
to either a parsed page (or rendered text) or a fetch error; indexing by
call number lets one behaviour describe "fails the first two times, then
succeeds".  `retryExec op w i rest` performs `rest + 1` attempts starting
at call index `i`, sleeping `w` seconds between attempts (tenacity's
`stop_after_attempt (rest+1)`, `wait_fixed w`), and returns the final
result, the number of attempts made and the list of sleeps performed. -/

/-- Bounded retry with fixed wait: result, attempts used, sleeps taken. -/
def retryExec {E A : Type} (op : Nat → Except E A) (w : Nat) :
    Nat → Nat → Except E A × Nat × List Nat
  | i, 0 => (op i, 1, [])
  | i, rest + 1 =>
    match op i with
    | .ok a => (.ok a, 1, [])
    | .error _ =>
      let r := retryExec op w (i + 1) rest
      (r.1, r.2.1 + 1, w :: r.2.2)

/-- `load_page` (src lines 89-101): 3 total attempts, fixed 2-second wait,
starting at global fetch-call index `k`. -/
def load_page_from {A : Type} (fetch : Nat → Except Unit A) (k : Nat) :
    Except Unit A × Nat × List Nat :=
  retryExec fetch 2 k 2

/-- `load_page` run from a fresh fetch stream. -/
def load_page_run {A : Type} (fetch : Nat → Except Unit A) :
    Except Unit A × Nat × List Nat :=
  load_page_from fetch 0

/-- Outer retry whose body consumes fetch calls: `body k` returns its
result together with the number of underlying fetch calls it used, and the
next attempt resumes at the advanced call index. -/
def retryStateful {E A : Type} (body : Nat → Except E A × Nat) :
    Nat → Nat → Except E A × Nat
  | k, 0 => body k
  | k, rest + 1 =>
    let r := body k
    match r.1 with
    | .ok a => (.ok a, r.2)
    | .error _ =>
      let r2 := retryStateful body (k + r.2) rest
      (r2.1, r.2 + r2.2)

/-! ### Profile extraction (src lines 103-158) -/

/-- The supplemental attribute set scraped from a profile page. -/
structure ProfileData where
  jersey_name : String
  full_name : String
  place_of_birth : String
  position : String
  height : String
  jersey_number : String
deriving DecidableEq, Repr

/-- The literal default dict of src line 113 (also lines 211-212). -/
def defaultProfileData : ProfileData :=
  { jersey_name := "Unknown", full_name := "Unknown",
    place_of_birth := "Unknown", position := "Unknown",
    height := "Unknown", jersey_number := "Unknown" }

/-- BeautifulSoup `element.string`: the single text fragment of an element
with exactly one child, recursing through single-element children. -/
def stringOf : Node → Option String
  | .text s => some s
  | .elem _ _ [c] => stringOf c
  | .elem _ _ _ => none

/-- Matcher for `soup.find('span', string=label)`. -/
def isSpanWithString (n : Node) (label : String) : Bool :=
  match n with
  | .text _ => false
  | .elem t _ _ => t = "span" && stringOf n = some label

/-- `soup.find('span', string=label).find_next('span',
class_='info-table__content--bold')` with the source's guard: a missing
label span yields "Unknown"; a present label with no following bold value
span makes `.get_text` run on `None`, raising `AttributeError`. -/
def labelValue (soup : Node) (label : String) : Except PyError String :=
  match (descendants soup).findIdx? (fun n => isSpanWithString n label) with
  | none => .ok "Unknown"
  | some i =>
    match ((descendants soup).drop (i + 1)).find?
        (fun n => matchesTag n "span" (some "info-table__content--bold")) with
    | none => .error .attributeError
    | some v => .ok (getTextStrip v)

/-- `select_one('.data-header__shirt-number')`: first element of that
class in document order, any tag. -/
def selectOneClass (soup : Node) (c : String) : Option Node :=
  (descendants soup).find? (fun n => match n with
    | .text _ => false
    | .elem _ _ _ => hasClass n c)

/-- The parsing part of `scrape_profile_data` (src lines 117-158). -/
def extract_profile (soup : Node) : Except PyError ProfileData := do
  let jersey_name := match find soup "h1" none with
    | some h =>
      match find h "strong" none with
      | some st => getTextStrip st
      | none => "Unknown"
    | none => "Unknown"
  let full_name ← labelValue soup "Name in home country:"
  let place_of_birth ← labelValue soup "Place of birth:"
  let position ← labelValue soup "Position:"
  let height ← labelValue soup "Height:"
  let jersey_number := match selectOneClass soup "data-header__shirt-number" with
    | some e => getTextStrip e
    | none => "Unknown"
  Except.ok {
    jersey_name := jersey_name, full_name := full_name,
    place_of_birth := place_of_birth, position := position,
    height := height, jersey_number := jersey_number }

/-- One attempt of `scrape_profile_data` (the decorated function body,
src lines 109-158): the sentinel URL short-circuits before any fetch;
otherwise one `load_page` (itself 3 fetch attempts) and a parse whose own
exception is also caught by the decorator's retry. -/
def scrape_profile_attempt (fetch : Nat → Except Unit Node)
    (profile_url : String) (k : Nat) : Except Unit ProfileData × Nat :=
  if profile_url = "Unknown" then (.ok defaultProfileData, 0)
  else
    let r := load_page_from fetch k
    match r.1 with
    | .error e => (.error e, r.2.1)
    | .ok soup =>
      match extract_profile soup with
      | .ok d => (.ok d, r.2.1)
      | .error _ => (.error (), r.2.1)

/-- `scrape_profile_data` with its tenacity decorator (3 total attempts),
starting at global fetch-call index `k`; the count is the number of
underlying fetch calls consumed. -/
def scrape_profile_from (fetch : Nat → Except Unit Node)
    (profile_url : String) (k : Nat) : Except Unit ProfileData × Nat :=
  retryStateful (scrape_profile_attempt fetch profile_url) k 2

/-- `scrape_profile_data` from a fresh fetch stream. -/
def scrape_profile_data_run (fetch : Nat → Except Unit Node)
    (profile_url : String) : Except Unit ProfileData × Nat :=
  scrape_profile_from fetch profile_url 0

/-! ### Pagination walker (src lines 160-190) -/

/-- Locate the resolved "next page" URL on a listing page
(src lines 169-173): the icon-next-page `li`, its pagination link, its
`href`, resolved against the current URL. -/
def findNextUrl (env : Env) (soup : Node) (current_url : String) :
    Option String :=
  match find soup "li" (some "tm-pagination__list-item--icon-next-page") with
  | none => none
  | some next_button =>
    match find next_button "a" (some "tm-pagination__link") with
    | none => none
    | some next_link =>
      match attrOf next_link "href" with
      | none => none
      | some href => some (env.urljoin current_url href)

/-- The `while True` discovery loop, fuel-bounded.  Each iteration loads
the current URL (with `load_page`'s retries); an exhausted fetch failure
is caught and ends discovery with the URLs collected so far, as do a
missing next control, a missing usable link, and a next URL already in
the accumulated list. -/
def paginationAux (env : Env) (fetch : Nat → Except Unit Node) :
    List String → String → Nat → Nat → List String × Nat
  | acc, _, k, 0 => (acc, k)
  | acc, current_url, k, fuel + 1 =>
    let r := load_page_from fetch k
    match r.1 with
    | .error _ => (acc, k + r.2.1)
    | .ok soup =>
      match findNextUrl env soup current_url with
      | none => (acc, k + r.2.1)
      | some next_url =>
        if next_url ∈ acc then (acc, k + r.2.1)
        else paginationAux env fetch (acc ++ [next_url]) next_url (k + r.2.1) fuel

/-- `get_pagination_urls` (src lines 160-190): starts from the base URL. -/
def get_pagination_urls (env : Env) (fetch : Nat → Except Unit Node)
    (base_url : String) (fuel : Nat) : List String × Nat :=
  paginationAux env fetch [base_url] base_url 0 fuel

/-! ### Orchestrator `scrape_page` (src lines 192-217)

The returned list pairs each extracted record with its enrichment:
`some d` when `player.update(profile_data)` ran for it (src lines 210 and
212), `none` when the caught exception cut enrichment short — the Python
dict then simply lacks the six profile keys. -/

/-- Phase (b): load each listing URL and extract its rows, accumulating
records in page order.  The Boolean records whether an exception (fetch
failure after retries, or an extractor exception) aborted the loop; the
records of pages already processed are kept (they sit in `all_data`). -/
def loadAndExtract (env : Env) (fetch : Nat → Except Unit Node) :
    List String → Nat → List Player × Nat × Bool
  | [], k => ([], k, false)
  | u :: rest, k =>
    let r := load_page_from fetch k
    match r.1 with
    | .error _ => ([], k + r.2.1, true)
    | .ok soup =>
      match extract_table_data env soup u with
      | .error _ => ([], k + r.2.1, true)
      | .ok ps =>
        let r2 := loadAndExtract env fetch rest (k + r.2.1)
        (ps ++ r2.1, r2.2.1, r2.2.2)

/-- Phase (c): enrich each record in row order (src lines 207-212).  A
sentinel profile URL is never fetched and receives the literal default
set; a profile failure that exhausts `scrape_profile_data`'s retries stops
the loop, leaving the current and all later records un-enriched. -/
def enrichPlayers (env : Env) (fetch : Nat → Except Unit Node) :
    List Player → Nat → List (Player × Option ProfileData) × Nat
  | [], k => ([], k)
  | p :: rest, k =>
    if p.profile_url ≠ "Unknown" then
      let r := scrape_profile_from fetch p.profile_url k
      match r.1 with
      | .ok d =>
        let r2 := enrichPlayers env fetch rest (k + r.2)
        ((p, some d) :: r2.1, r2.2)
      | .error _ =>
        ((p, none) :: rest.map (fun q => (q, none)), k + r.2)
    else
      let r2 := enrichPlayers env fetch rest k
      ((p, some defaultProfileData) :: r2.1, r2.2)

/-- The tail of `scrape_page`: when an exception aborted phase (b), the
accumulated records are returned un-enriched (the `except` at src line 214
catches it); otherwise phase (c) runs. -/
def finishScrape (env : Env) (fetch : Nat → Except Unit Node)
    (phaseA : List Player × Nat × Bool) :
    List (Player × Option ProfileData) × Nat :=
  match phaseA.2.2 with
  | true => (phaseA.1.map (fun p => (p, none)), phaseA.2.1)
  | false => enrichPlayers env fetch phaseA.1 phaseA.2.1

/-- `scrape_page` (src lines 192-217): pagination discovery (when
enabled), per-page extraction, per-player enrichment; the surrounding
`try/except` catches any propagated failure, logs it, and the function
returns `all_data` as accumulated.  The second component counts fetch
calls. -/
def scrape_page (env : Env) (fetch : Nat → Except Unit Node) (url : String)
    (use_pagination : Bool) (fuel : Nat) :
    List (Player × Option ProfileData) × Nat :=
  let start := if use_pagination
    then get_pagination_urls env fetch url fuel
    else ([url], 0)
  finishScrape env fetch (loadAndExtract env fetch start.1 start.2)

/-! ### CSV writing (src lines 219-243) and batch normalization
(src lines 260-270) -/

/-- The header row literal of src lines 227-233. -/
def csvHeader : List String :=
  ["name", "status", "profile_url", "image_url", "jersey_name",
   "jersey_number", "nation", "nation_code", "club", "place_of_birth",
   "full_name", "position", "height", "date_of_birth", "appearances",
   "goals", "assists", "own_goals", "yellow_cards", "second_yellow",
   "red_cards", "substituted_on", "substituted_off", "minutes_played"]

/-- One data row (src lines 234-242). -/
def playerCsvRow (p : Player) (d : ProfileData) : List String :=
  [p.name, p.status, p.profile_url, p.image_url,
   d.jersey_name, d.jersey_number, p.nation, p.nation_code,
   p.club, d.place_of_birth, d.full_name, d.position,
   d.height, p.date_of_birth, p.appearances, p.goals,
   p.assists, p.own_goals, p.yellow_cards, p.second_yellow,
   p.red_cards, p.sub_on, p.sub_off, p.minutes_played]

/-- `save_to_csv` (src lines 219-243), as the sequence of rows handed to
the opaque CSV writer: header first, then one row per record. -/
def save_to_csv (data : List (Player × ProfileData)) : List (List String) :=
  csvHeader :: data.map (fun pd => playerCsvRow pd.1 pd.2)

/-- The Batch Runner's defensive normalization (src lines 262-270): every
record missing the six enrichment keys gets them set to the sentinel —
i.e. an un-enriched record receives exactly the default attribute set. -/
def normalizePlayer (pd : Player × Option ProfileData) :
    Player × ProfileData :=
  (pd.1, pd.2.getD defaultProfileData)

/-! ### Concrete inputs used by witnesses and counterexamples -/

/-- A concrete environment: URL join by concatenation, a lookup that
recognises no country. -/
def envC : Env := ⟨fun b r => b ++ r, fun _ => none⟩

/-- `n` empty `td` cells. -/
def tds (n : Nat) : List Node := List.replicate n (Node.elem "td" [] [])

/-- A listing page whose single roster row has exactly 12 `td` cells. -/
def docTwelve : Node :=
  .elem "[document]" [] [
    .elem "h1" [] [.text "FC"],
    .elem "table" [("class", "items")] [
      .elem "tbody" [] [.elem "tr" [] (tds 12)]]]

/-- A listing page whose roster row holds a nested inline-table that has
no `hauptlink` cell (12 `td` descendants in total). -/
def docNoHauptlink : Node :=
  .elem "[document]" [] [
    .elem "h1" [] [.text "FC"],
    .elem "table" [("class", "items")] [
      .elem "tbody" [] [.elem "tr" [] (
        [Node.elem "td" [] [],
         Node.elem "td" [] [Node.elem "table" [("class", "inline-table")] [
           Node.elem "tr" [] [Node.elem "td" [] []]]]] ++ tds 10)]]]

/-- A listing page with one plain 17-cell row (all cells empty) and one
2-cell separator row. -/
def docPlain : Node :=
  .elem "[document]" [] [
    .elem "h1" [] [.text "FC Test"],
    .elem "table" [("class", "items")] [
      .elem "tbody" [] [.elem "tr" [] (tds 17), .elem "tr" [] (tds 2)]]]

/-- The record extracted from the plain 17-cell row of `docPlain`. -/
def playerPlain : Player :=
  { name := "Unknown", status := "Unknown", profile_url := "Unknown",
    image_url := "Unknown", nation := "Unknown", nation_code := "unknown",
    club := "FC Test", date_of_birth := "", appearances := "", goals := "",
    assists := "", own_goals := "", yellow_cards := "", second_yellow := "",
    red_cards := "", sub_on := "", sub_off := "", minutes_played := "" }

/-- A roster row whose name sub-table links to `href` with text `nm`. -/
def linkRow (href nm : String) : Node :=
  .elem "tr" [] (
    [Node.elem "td" [] [],
     Node.elem "td" [] [Node.elem "table" [("class", "inline-table")] [
       Node.elem "tr" [] [Node.elem "td" [("class", "hauptlink")] [
         Node.elem "a" [("href", href)] [Node.text nm]]]]]] ++ tds 15)

/-- A listing page with two linked players. -/
def docTwoLinks : Node :=
  .elem "[document]" [] [
    .elem "h1" [] [.text "FC"],
    .elem "table" [("class", "items")] [
      .elem "tbody" [] [linkRow "/p1" "Alice", linkRow "/p2" "Bob"]]]

/-- Fetch behaviour: the first call yields `docTwoLinks`, every later call
fails — so every profile fetch exhausts its retries. -/
def fetchTwoLinks : Nat → Except Unit Node :=
  fun i => if i = 0 then .ok docTwoLinks else .error ()

/-- A listing page whose single row carries the placeholder link "#". -/
def docHashLink : Node :=
  .elem "[document]" [] [
    .elem "h1" [] [.text "FC"],
    .elem "table" [("class", "items")] [
      .elem "tbody" [] [linkRow "#" "Carl"]]]

/-- Fetch behaviour for `docHashLink`: first call succeeds, rest fail. -/
def fetchHashLink : Nat → Except Unit Node :=
  fun i => if i = 0 then .ok docHashLink else .error ()

/-- The record extracted from `docHashLink`'s row: the "#" link collapses
to the sentinel profile URL. -/
def playerCarl : Player :=
  { name := "Carl", status := "Unknown", profile_url := "Unknown",
    image_url := "Unknown", nation := "Unknown", nation_code := "unknown",
    club := "FC", date_of_birth := "", appearances := "", goals := "",
    assists := "", own_goals := "", yellow_cards := "", second_yellow := "",
    red_cards := "", sub_on := "", sub_off := "", minutes_played := "" }

/-- A first listing page that both holds one linked roster row and carries
a "next page" pagination control pointing at "/2". -/
def docPageOne : Node :=
  .elem "[document]" [] [
    .elem "h1" [] [.text "FC"],
    .elem "table" [("class", "items")] [
      .elem "tbody" [] [linkRow "/p1" "Alice"]],
    .elem "li" [("class", "tm-pagination__list-item--icon-next-page")] [
      .elem "a" [("class", "tm-pagination__link"), ("href", "/2")] []]]

/-- Fetch behaviour for the two-page chain: the walker's load of page 1
(call 0) and phase (b)'s re-load of page 1 (call 4) succeed; every other
call — the walker's and phase (b)'s loads of page 2 — fails, so page 2's
load exhausts its retries. -/
def fetchChain : Nat → Except Unit Node :=
  fun i => if i = 0 || i = 4 then .ok docPageOne else .error ()

/-- The record extracted from `docPageOne`'s single roster row. -/
def playerAlice : Player :=
  { name := "Alice", status := "Unknown", profile_url := "u/p1",
    image_url := "Unknown", nation := "Unknown", nation_code := "unknown",
    club := "FC", date_of_birth := "", appearances := "", goals := "",
    assists := "", own_goals := "", yellow_cards := "", second_yellow := "",
    red_cards := "", sub_on := "", sub_off := "", minutes_played := "" }

/-! ### Helper lemmas -/

/-- When every fetch from index `k` on fails, a `(n+1)`-attempt retry makes
all `n+1` attempts, sleeps `n` times, and ends in the error. -/
theorem retryExec_allfail {A : Type} (op : Nat → Except Unit A) (w : Nat) :
    ∀ (n k : Nat), (∀ i, k ≤ i → op i = .error ()) →
      retryExec op w k n = (.error (), n + 1, List.replicate n w) := by
  intro n
  induction n with
  | zero =>
    intro k hf
    simp [retryExec, hf k le_rfl]
  | succ n ih =>
    intro k hf
    have hk := hf k le_rfl
    simp only [retryExec, hk]
    rw [ih (k + 1) (fun i hi => hf i (by omega))]
    simp [List.replicate_succ]

/-- When every fetch from index `k` on fails, one `scrape_profile_data`
call on a non-sentinel URL consumes exactly 9 fetch calls (3 outer
attempts × 3 `load_page` attempts) and fails. -/
theorem scrape_profile_from_allfail (fetch : Nat → Except Unit Node)
    (url : String) (k : Nat) (hu : url ≠ "Unknown")
    (hf : ∀ i, k ≤ i → fetch i = .error ()) :
    scrape_profile_from fetch url k = (.error (), 9) := by
  have hbody : ∀ j, k ≤ j → scrape_profile_attempt fetch url j = (.error (), 3) := by
    intro j hj
    have := retryExec_allfail fetch 2 2 j (fun i hi => hf i (by omega))
    simp [scrape_profile_attempt, hu, load_page_from, this]
  simp only [scrape_profile_from, retryStateful]
  rw [hbody k le_rfl]
  simp only [retryStateful]
  rw [hbody (k + 3) (by omega)]
  simp only [retryStateful]
  rw [hbody (k + 3 + 3) (by omega)]
  rfl

/-- The discovery loop only ever appends to its accumulated list. -/
theorem paginationAux_suffix (env : Env) (fetch : Nat → Except Unit Node) :
    ∀ (fuel : Nat) (acc : List String) (cur : String) (k : Nat),
      ∃ l, (paginationAux env fetch acc cur k fuel).1 = acc ++ l := by
  intro fuel
  induction fuel with
  | zero =>
    intro acc cur k
    exact ⟨[], by simp [paginationAux]⟩
  | succ fuel ih =>
    intro acc cur k
    simp only [paginationAux]
    cases hr : (load_page_from fetch k).1 with
    | error e => exact ⟨[], by simp⟩
    | ok soup =>
      cases hn : findNextUrl env soup cur with
      | none => exact ⟨[], by simp [hn]⟩
      | some next =>
        by_cases hmem : next ∈ acc
        · exact ⟨[], by simp [hn, hmem]⟩
        · obtain ⟨l, hl⟩ := ih (acc ++ [next]) next (k + (load_page_from fetch k).2.1)
          exact ⟨[next] ++ l, by simp [hn, hmem, hl]⟩

/-- The discovery loop preserves freedom from duplicates: it only appends
a URL after checking it is not already in the list. -/
theorem paginationAux_nodup (env : Env) (fetch : Nat → Except Unit Node) :
    ∀ (fuel : Nat) (acc : List String) (cur : String) (k : Nat),
      acc.Nodup → ((paginationAux env fetch acc cur k fuel).1).Nodup := by
  intro fuel
  induction fuel with
  | zero =>
    intro acc cur k hacc
    simpa [paginationAux] using hacc
  | succ fuel ih =>
    intro acc cur k hacc
    simp only [paginationAux]
    cases hr : (load_page_from fetch k).1 with
    | error e => simpa using hacc
    | ok soup =>
      cases hn : findNextUrl env soup cur with
      | none => simpa [hn] using hacc
      | some next =>
        by_cases hmem : next ∈ acc
        · simpa [hn, hmem] using hacc
        · simp only [hn, hmem, if_false]
          exact ih (acc ++ [next]) next (k + (load_page_from fetch k).2.1)
            (by simp [List.nodup_append, hacc, hmem])

/-- A row qualifies when it has at least 12 `td` descendants. -/
def qualifies (r : Node) : Bool := 12 ≤ (findAll r "td" none).length

/-- The qualifying rows of a listing page, following the extractor's own
table/tbody location steps. -/
def qualifyingRows (soup : Node) : List Node :=
  match find soup "table" (some "items") with
  | none => []
  | some table =>
    match find table "tbody" none with
    | none => []
    | some tbody => (findAll tbody "tr" none).filter qualifies

/-- `extractRow` yields no record exactly for the rows the `< 12` guard
skips. -/
theorem extractRow_ok_none_iff (env : Env) (club base : String) (r : Node) :
    extractRow env club base r = .ok none ↔
      (findAll r "td" none).length < 12 := by
  unfold extractRow
  by_cases h : (findAll r "td" none).length < 12
  · simp [h]
  · simp only [h, if_false, iff_false]
    cases hb : extractRowBody env club base (findAll r "td" none) <;>
      simp [Except.map, hb]

/-- A produced record comes from a qualifying row. -/
theorem extractRow_qualifies (env : Env) (club base : String) (r : Node)
    (p : Player) (h : extractRow env club base r = .ok (some p)) :
    qualifies r = true := by
  unfold qualifies
  by_contra hq
  have hlt : (findAll r "td" none).length < 12 := by
    simp at hq; omega
  rw [(extractRow_ok_none_iff env club base r).mpr hlt] at h
  simp at h

/-- On a successful extraction, the row loop produces exactly one record
per qualifying row. -/
theorem extractRows_length (env : Env) (club base : String) :
    ∀ (rows : List Node) (l : List Player),
      extractRows env club base rows = .ok l →
      l.length = (rows.filter qualifies).length := by
  intro rows
  induction rows with
  | nil =>
    intro l h
    simp only [extractRows] at h
    cases h
    rfl
  | cons r rs ih =>
    intro l h
    simp only [extractRows, bind, Except.bind] at h
    cases hr : extractRow env club base r with
    | error e => rw [hr] at h; cases h
    | ok p? =>
      rw [hr] at h
      cases hrs : extractRows env club base rs with
      | error e => rw [hrs] at h; cases h
      | ok rest =>
        rw [hrs] at h
        cases p? with
        | some p =>
          cases h
          have hq := extractRow_qualifies env club base r p hr
          simp [List.filter_cons, hq, ih rest hrs]
        | none =>
          cases h
          have hlt := (extractRow_ok_none_iff env club base r).mp hr
          have hq : qualifies r = false := by
            unfold qualifies
            simp; omega
          simp [List.filter_cons, hq, ih l hrs]

/-! ### Claim theorems -/

/-- C5: if the fetch fails on every attempt, `load_page` invokes it
exactly 3 times with a 2-second sleep between consecutive attempts and
then propagates the failure; if attempt `k` (the first to succeed)
returns content, that content is returned after `k+1` invocations and no
further attempt is made. -/
theorem load_page_retry_policy (fetch : Nat → Except Unit String) :
    ((∀ i, fetch i = .error ()) →
      load_page_run fetch = (.error (), 3, [2, 2])) ∧
    (∀ k s, k < 3 → (∀ j, j < k → fetch j = .error ()) → fetch k = .ok s →
      load_page_run fetch = (.ok s, k + 1, List.replicate k 2)) := by
  constructor
  · intro hf
    have := retryExec_allfail fetch 2 2 0 (fun i _ => hf i)
    simpa [load_page_run, load_page_from] using this
  · intro k s hk hj hs
    match k, hk with
    | 0, _ =>
      simp [load_page_run, load_page_from, retryExec, hs]
    | 1, _ =>
      simp [load_page_run, load_page_from, retryExec, hj 0 (by omega), hs]
    | 2, _ =>
      simp [load_page_run, load_page_from, retryExec, hj 0 (by omega),
        hj 1 (by omega), hs, List.replicate_succ]

/-- Witness for C5: a fetch that always fails is invoked 3 times with two
2-second sleeps; a fetch that succeeds immediately is invoked once. -/
theorem load_page_retry_policy_witness :
    load_page_run (fun _ => (.error () : Except Unit String)) =
      (.error (), 3, [2, 2]) ∧
    load_page_run (fun _ => (.ok "html" : Except Unit String)) =
      (.ok "html", 1, []) :=
  ⟨(load_page_retry_policy (fun _ => .error ())).1 (fun _ => rfl),
   (load_page_retry_policy (fun _ => .ok "html")).2 0 "html" (by omega)
     (fun j hj => absurd hj (by omega)) rfl⟩

/-- C10: on a non-sentinel profile URL whose fetch always fails, the
underlying fetch is attempted 9 times (3 `scrape_profile_data` attempts,
each running `load_page`'s 3 attempts) before the failure propagates. -/
theorem profile_fetch_attempted_nine_times (fetch : Nat → Except Unit Node)
    (url : String) (hu : url ≠ "Unknown") (hf : ∀ i, fetch i = .error ()) :
    scrape_profile_data_run fetch url = (.error (), 9) :=
  scrape_profile_from_allfail fetch url 0 hu (fun i _ => hf i)

/-- Witness for C10 at a concrete URL and an always-failing fetch. -/
theorem profile_fetch_attempted_nine_times_witness :
    scrape_profile_data_run (fun _ => .error ()) "http://x" =
      (.error (), 9) :=
  profile_fetch_attempted_nine_times (fun _ => .error ()) "http://x"
    (by decide) (fun _ => rfl)

/-- C9: the dataset handed to the CSV writer always begins with the fixed
24-column header row, even when there are no records. -/
theorem csv_header_always_written :
    (∀ data, (save_to_csv data).head? = some csvHeader) ∧
    save_to_csv [] = [csvHeader] ∧ csvHeader.length = 24 :=
  ⟨fun _ => rfl, rfl, rfl⟩

/-- C1 (code bug): a roster row with exactly 12 cells passes the
`len(cols) < 12` guard but the extractor then indexes `cols[16]`, raising
`IndexError` — no `PlayerRecord` is produced at all. -/
theorem extract_row_with_twelve_cells_raises :
    extract_table_data envC docTwelve "b" = .error PyError.indexError := by
  rfl

/-- C3 (code bug): when the nested name sub-table exists but has no
`hauptlink` cell, `find('td', class_='hauptlink')` is `None` and the
chained `.find('a')` raises `AttributeError` — the extractor does raise on
malformed structure. -/
theorem extract_missing_hauptlink_raises :
    extract_table_data envC docNoHauptlink "b" = .error PyError.attributeError := by
  rfl

/-- C6: for every fetch behaviour, starting URL and loop bound, the
Pagination Walker's result starts with the input URL and contains no
duplicate URLs (a repeated next-link, a missing link and a fetch error all
merely stop discovery — the function returns normally in every case). -/
theorem pagination_head_and_nodup (env : Env)
    (fetch : Nat → Except Unit Node) (base : String) (fuel : Nat) :
    (get_pagination_urls env fetch base fuel).1.head? = some base ∧
    ((get_pagination_urls env fetch base fuel).1).Nodup := by
  constructor
  · obtain ⟨l, hl⟩ := paginationAux_suffix env fetch fuel [base] base 0
    simp [get_pagination_urls, hl]
  · exact paginationAux_nodup env fetch fuel [base] base 0 (by simp)

/-- C8: on a successful extraction, rows with fewer than 12 cells
contribute no record, so the output has at most one record per qualifying
row (in fact exactly one, so the bound holds). -/
theorem extract_skips_short_rows (env : Env) (soup : Node) (base : String)
    (l : List Player) (h : extract_table_data env soup base = .ok l) :
    l.length ≤ (qualifyingRows soup).length := by
  unfold extract_table_data at h
  unfold qualifyingRows
  cases ht : find soup "table" (some "items") with
  | none =>
    simp only [ht] at h
    cases h
    simp
  | some table =>
    simp only [ht] at h ⊢
    cases htb : find table "tbody" none with
    | none =>
      simp only [htb] at h
      cases h
      simp
    | some tbody =>
      simp only [htb] at h ⊢
      exact le_of_eq (extractRows_length env _ base _ l h)

/-- Witness for C8: on `docPlain` (one 17-cell row, one 2-cell row) the
single produced record is bounded by the single qualifying row. -/
theorem extract_skips_short_rows_witness :
    [playerPlain].length ≤ (qualifyingRows docPlain).length :=
  extract_skips_short_rows envC docPlain "b" [playerPlain] (by rfl)

/-- Indexing below the length never raises. -/
theorem colAt_ok_of_lt (cols : List Node) (i : Nat) (h : i < cols.length) :
    ∃ c, colAt cols i = .ok c := by
  unfold colAt
  cases hg : cols.get? i with
  | none =>
    rw [List.get?_eq_none] at hg
    omega
  | some c => exact ⟨c, rfl⟩

/-- Reading a cell's text below the length never raises. -/
theorem colText_ok_of_lt (cols : List Node) (i : Nat) (h : i < cols.length) :
    ∃ s, colText cols i = .ok s := by
  obtain ⟨c, hc⟩ := colAt_ok_of_lt cols i h
  exact ⟨pyStrip (textOf c), by simp [colText, hc, Except.map]⟩

/-- A row with at least 17 cells and no nested name sub-table produces a
record whose name, status, profile-URL and image fields are all the
sentinel. -/
theorem extractRow_sentinel_fields (env : Env) (club base : String)
    (r : Node) (c1 : Node)
    (h17 : 17 ≤ (findAll r "td" none).length)
    (h1 : (findAll r "td" none).get? 1 = some c1)
    (hnc : find c1 "table" (some "inline-table") = none) :
    ∃ p, extractRow env club base r = .ok (some p) ∧
      p.name = "Unknown" ∧ p.status = "Unknown" ∧
      p.profile_url = "Unknown" ∧ p.image_url = "Unknown" := by
  have h12 : ¬ ((findAll r "td" none).length < 12) := by omega
  have hc1 : colAt (findAll r "td" none) 1 = .ok c1 := by
    unfold colAt
    rw [h1]
  obtain ⟨c5, hc5⟩ := colAt_ok_of_lt (findAll r "td" none) 5 (by omega)
  obtain ⟨s6, h6⟩ := colText_ok_of_lt (findAll r "td" none) 6 (by omega)
  obtain ⟨s7, h7⟩ := colText_ok_of_lt (findAll r "td" none) 7 (by omega)
  obtain ⟨s8, h8⟩ := colText_ok_of_lt (findAll r "td" none) 8 (by omega)
  obtain ⟨s9, h9⟩ := colText_ok_of_lt (findAll r "td" none) 9 (by omega)
  obtain ⟨s10, h10⟩ := colText_ok_of_lt (findAll r "td" none) 10 (by omega)
  obtain ⟨s11, h11⟩ := colText_ok_of_lt (findAll r "td" none) 11 (by omega)
  obtain ⟨s12, h12'⟩ := colText_ok_of_lt (findAll r "td" none) 12 (by omega)
  obtain ⟨s13, h13⟩ := colText_ok_of_lt (findAll r "td" none) 13 (by omega)
  obtain ⟨s14, h14⟩ := colText_ok_of_lt (findAll r "td" none) 14 (by omega)
  obtain ⟨s15, h15⟩ := colText_ok_of_lt (findAll r "td" none) 15 (by omega)
  obtain ⟨s16, h16⟩ := colText_ok_of_lt (findAll r "td" none) 16 (by omega)
  unfold extractRow
  rw [if_neg h12]
  unfold extractRowBody
  simp only [bind, Except.bind, hc1, hnc, hc5, h6, h7, h8, h9, h10, h11,
    h12', h13, h14, h15, h16]
  exact ⟨_, rfl, rfl, rfl, rfl, rfl⟩

/-- C4 counterexample: extracting the all-empty 17-cell row of `docPlain`
yields a record whose `date_of_birth` is the empty string, and that empty
string reaches the written CSV row (column 13) — so not every field holds
a non-empty string at write time. -/
theorem written_field_can_be_empty_cex :
    extract_table_data envC docPlain "b" = .ok [playerPlain] ∧
    save_to_csv [normalizePlayer (playerPlain, none)] =
      [csvHeader, playerCsvRow playerPlain defaultProfileData] ∧
    (playerCsvRow playerPlain defaultProfileData).get? 13 = some "" :=
  ⟨rfl, rfl, rfl⟩

/-- C4 (amended): at write time every record carries all 24 fields — a
record that missed profile enrichment is backfilled with the sentinel for
the six profile fields, and a row whose expected name structure is absent
gets the sentinel for its name/status/profile/image fields — but a
present-and-empty cell contributes the empty string, not the sentinel. -/
theorem record_fields_present_at_write_time :
    (∀ (p : Player) (d : ProfileData), (playerCsvRow p d).length = 24) ∧
    (∀ pd : Player × Option ProfileData, pd.2 = none →
      normalizePlayer pd = (pd.1, defaultProfileData)) ∧
    (∀ (pd : Player × Option ProfileData) (d : ProfileData), pd.2 = some d →
      normalizePlayer pd = (pd.1, d)) ∧
    (∀ (env : Env) (club base : String) (r : Node) (c1 : Node),
      17 ≤ (findAll r "td" none).length →
      (findAll r "td" none).get? 1 = some c1 →
      find c1 "table" (some "inline-table") = none →
      ∃ p, extractRow env club base r = .ok (some p) ∧
        p.name = "Unknown" ∧ p.status = "Unknown" ∧
        p.profile_url = "Unknown" ∧ p.image_url = "Unknown") := by
  refine ⟨fun p d => rfl, fun pd h => ?_, fun pd d h => ?_, ?_⟩
  · cases pd with
    | mk p o => cases h; rfl
  · cases pd with
    | mk p o => cases h; rfl
  · intro env club base r c1 h17 h1 hnc
    exact extractRow_sentinel_fields env club base r c1 h17 h1 hnc

/-- Witness for C4 (amended) at the concrete plain 17-cell row. -/
theorem record_fields_present_witness :
    (playerCsvRow playerPlain defaultProfileData).length = 24 ∧
    normalizePlayer (playerPlain, none) = (playerPlain, defaultProfileData) ∧
    ∃ p, extractRow envC "FC Test" "b" (Node.elem "tr" [] (tds 17)) =
        .ok (some p) ∧
      p.name = "Unknown" ∧ p.status = "Unknown" ∧
      p.profile_url = "Unknown" ∧ p.image_url = "Unknown" :=
  ⟨record_fields_present_at_write_time.1 playerPlain defaultProfileData,
   record_fields_present_at_write_time.2.1 (playerPlain, none) rfl,
   record_fields_present_at_write_time.2.2.2 envC "FC Test" "b"
     (Node.elem "tr" [] (tds 17)) (Node.elem "td" [] [])
     (by decide) (by rfl) (by rfl)⟩

/-- C2 counterexample: with a fetch that serves the listing page once and
then fails forever, every profile enrichment exhausts its 9 fetch attempts
(total calls 1 + 9 = 10) — yet `scrape_page` returns normally with the two
accumulated (un-enriched) records instead of propagating an exception and
losing them. -/
theorem scrape_page_returns_partial_records_cex :
    (scrape_page envC fetchTwoLinks "u" false 0).1.length = 2 ∧
    (scrape_page envC fetchTwoLinks "u" false 0).2 = 10 ∧
    ∀ pd ∈ (scrape_page envC fetchTwoLinks "u" false 0).1, pd.2 = none := by
  refine ⟨rfl, rfl, ?_⟩
  decide

/-- C2 (amended): a fetch failure that exhausts the Page Loader's retries
— during listing-page loading or during profile enrichment — is caught
inside the orchestrator's `try/except`; the orchestrator returns normally
with the records accumulated before the failure (un-enriched), rather
than propagating the exception.  Listing arm: with pagination on, when
the discovered second listing page's load exhausts its retries, the first
page's extracted records are still returned.  Enrichment arm: when every
profile fetch fails, all extracted records are returned un-enriched. -/
theorem scrape_page_swallows_failure_keeps_records :
    (∀ (env : Env) (fetch : Nat → Except Unit Node) (url : String)
        (fuel : Nat) (u1 u2 : String) (k0 : Nat) (N : Node)
        (ps : List Player),
      get_pagination_urls env fetch url fuel = ([u1, u2], k0) →
      fetch k0 = .ok N →
      extract_table_data env N u1 = .ok ps →
      (∀ i, k0 + 1 ≤ i → fetch i = .error ()) →
      (scrape_page env fetch url true fuel).1 =
        ps.map (fun p => (p, none))) ∧
    (∀ (env : Env) (N : Node) (url : String)
        (fetch : Nat → Except Unit Node) (fuel : Nat),
      fetch 0 = .ok N →
      (∀ i, 1 ≤ i → fetch i = .error ()) →
      (∀ p ∈ (extract_table_data env N url).toOption.getD [],
        p.profile_url ≠ "Unknown") →
      (scrape_page env fetch url false fuel).1 =
        ((extract_table_data env N url).toOption.getD []).map
          (fun p => (p, none))) := by
  constructor
  · intro env fetch url fuel u1 u2 k0 N ps hwalk hN hext hfail
    have hload1 : load_page_from fetch k0 = (.ok N, 1, []) := by
      simp [load_page_from, retryExec, hN]
    have hload2 : load_page_from fetch (k0 + 1) = (.error (), 3, [2, 2]) := by
      have := retryExec_allfail fetch 2 2 (k0 + 1) (fun i hi => hfail i hi)
      simpa [load_page_from] using this
    unfold scrape_page
    simp only [hwalk, if_true]
    simp only [loadAndExtract, hload1, hext, hload2, finishScrape]
    simp
  · intro env N url fetch fuel h0 h1 hp
    have hload : load_page_from fetch 0 = (.ok N, 1, []) := by
      simp [load_page_from, retryExec, h0]
    unfold scrape_page
    simp only [Bool.false_eq_true, if_false]
    simp only [loadAndExtract, hload]
    cases he : extract_table_data env N url with
    | error e => simp [he, finishScrape, Except.toOption]
    | ok ps =>
      simp only [he, finishScrape, List.append_nil]
      cases ps with
      | nil => simp [enrichPlayers, Except.toOption]
      | cons p rest =>
        have hpu : p.profile_url ≠ "Unknown" :=
          hp p (by simp [he, Except.toOption])
        have hprof : scrape_profile_from fetch p.profile_url 1 =
            (.error (), 9) :=
          scrape_profile_from_allfail fetch p.profile_url 1 hpu
            (fun i hi => h1 i hi)
        simp [enrichPlayers, hpu, hprof, Except.toOption]

/-- Witness for C2 (amended): the listing arm at the concrete two-page
chain (page 2's load exhausts its retries, page 1's record is returned),
and the enrichment arm at the concrete two-player listing. -/
theorem scrape_page_swallows_failure_witness :
    (scrape_page envC fetchChain "u" true 2).1 =
      [playerAlice].map (fun p => (p, none)) ∧
    (scrape_page envC fetchTwoLinks "u" false 0).1 =
      ((extract_table_data envC docTwoLinks "u").toOption.getD []).map
        (fun p => (p, none)) :=
  ⟨scrape_page_swallows_failure_keeps_records.1 envC fetchChain "u" 2
     "u" "u/2" 4 docPageOne [playerAlice] (by decide) rfl rfl
     (fun i hi => by
       have h0 : i ≠ 0 := by omega
       have h4 : i ≠ 4 := by omega
       simp [fetchChain, h0, h4]),
   scrape_page_swallows_failure_keeps_records.2 envC docTwoLinks "u"
     fetchTwoLinks 0 rfl
     (fun i hi => by
       have hne : i ≠ 0 := by omega
       simp [fetchTwoLinks, hne])
     (by decide)⟩

/-- Records enriched with `some d` while carrying the sentinel profile URL
can only have received the literal default attribute set. -/
theorem enrichPlayers_sentinel (env : Env) (fetch : Nat → Except Unit Node) :
    ∀ (ps : List Player) (k : Nat) (p : Player) (d : ProfileData),
      (p, some d) ∈ (enrichPlayers env fetch ps k).1 →
      p.profile_url = "Unknown" → d = defaultProfileData := by
  intro ps
  induction ps with
  | nil =>
    intro k p d hmem hpu
    simp [enrichPlayers] at hmem
  | cons q rest ih =>
    intro k p d hmem hpu
    simp only [enrichPlayers] at hmem
    by_cases hq : q.profile_url ≠ "Unknown"
    · rw [if_pos hq] at hmem
      cases hr : (scrape_profile_from fetch q.profile_url k).1 with
      | ok d2 =>
        simp only [hr] at hmem
        rcases List.mem_cons.mp hmem with heq | hmem2
        · injection heq with hpq hd
          exact absurd (hpq ▸ hpu) hq
        · exact ih _ p d hmem2 hpu
      | error e =>
        simp only [hr] at hmem
        rcases List.mem_cons.mp hmem with heq | hmem2
        · injection heq with hpq hd
          exact Option.noConfusion hd
        · simp [List.mem_map] at hmem2
    · rw [if_neg hq] at hmem
      rcases List.mem_cons.mp hmem with heq | hmem2
      · injection heq with hpq hd
        injection hd with hd2
      · exact ih _ p d hmem2 hpu

/-- The sentinel-enrichment property carries through the orchestrator's
final assembly, whichever way phase (b) ended. -/
theorem finishScrape_sentinel (env : Env) (fetch : Nat → Except Unit Node)
    (A : List Player × Nat × Bool) (p : Player) (d : ProfileData)
    (hmem : (p, some d) ∈ (finishScrape env fetch A).1)
    (hpu : p.profile_url = "Unknown") : d = defaultProfileData := by
  obtain ⟨ps, k, b⟩ := A
  cases b with
  | true =>
    simp only [finishScrape] at hmem
    simp [List.mem_map] at hmem
  | false =>
    simp only [finishScrape] at hmem
    exact enrichPlayers_sentinel env fetch ps k p d hmem hpu

/-- C7: a sentinel profile URL never triggers a profile fetch
(`scrape_profile_data` returns the default attribute set after 0 fetch
calls), and any record in the orchestrator's output whose profile URL is
the sentinel carries exactly the default set for the 6 profile-derived
fields. -/
theorem sentinel_profile_url_skips_fetch :
    (∀ fetch : Nat → Except Unit Node,
      scrape_profile_data_run fetch "Unknown" = (.ok defaultProfileData, 0)) ∧
    (∀ (env : Env) (fetch : Nat → Except Unit Node) (url : String)
        (flag : Bool) (fuel : Nat) (p : Player) (d : ProfileData),
      (p, some d) ∈ (scrape_page env fetch url flag fuel).1 →
      p.profile_url = "Unknown" → d = defaultProfileData) := by
  constructor
  · intro fetch
    rfl
  · intro env fetch url flag fuel p d hmem hpu
    unfold scrape_page at hmem
    exact finishScrape_sentinel env fetch _ p d hmem hpu

/-- Witness for C7: on the listing whose single row links to "#", the
record's profile URL is the sentinel, zero fetches happen for it, and its
merged profile fields are the default set. -/
theorem sentinel_profile_url_skips_fetch_witness :
    scrape_profile_data_run fetchHashLink "Unknown" =
      (.ok defaultProfileData, 0) ∧
    defaultProfileData = defaultProfileData :=
  ⟨sentinel_profile_url_skips_fetch.1 fetchHashLink,
   sentinel_profile_url_skips_fetch.2 envC fetchHashLink "u" false 0
     playerCarl defaultProfileData (by decide) (by rfl)⟩

end Scrape
